import Mathlib

/-!
# Verification of the Aiven service lifecycle reconciliation core

A shallow embedding of the service resource lifecycle code
(`resource_service.go`-style source: schema constants, create wrapper
pre-seeding, read/update/delete handlers, maintenance-window pairing,
API-response copy-back, component flattening, connection-info projection)
together with models of the composite identity codec and the change
waiter, which are described by the design document but whose defining
source files are not part of this corpus.

Machine integers are modelled as `Int` with explicit 32-bit bounds where
the source parses ports; fallible steps return `Option`; the fatal
unsupported-service-type branch of the connection-info projection is
modelled as `none`.
-/

namespace AivenProvider

/-! ## Composite identity codec

Modelled from the spec: `buildResourceID` and `splitResourceID` are not
in the provided sources (only callers such as `resourceServiceCreate`
line 713 and `resourceServiceState` are).  The spec (§4.1, §6) requires:
parts joined with a reserved separator, any reversible escaping scheme
applied uniformly to parts so that a literal separator inside a part is
distinguishable from a part boundary, and `decode(id, expectedPartCount)`
failing when the part count does not match.  The separator is `/`
(visible in `resourceServiceState`, which rejects identifiers that do
not split into exactly two parts on `/`). -/

/-- The reserved identifier separator, `/`, as used by
`resourceServiceState`. -/
def idSeparator : Char := '/'

/-- Modelled from the spec: escape a single character of an identity part
so that the escaped text never contains the separator.  The separator
becomes an escape pair, and the escape character itself is escaped. -/
def escChar (c : Char) : List Char :=
  if c = '/' then ['\\', 's']
  else if c = '\\' then ['\\', 'b']
  else [c]

/-- Modelled from the spec: escape every character of an identity part. -/
def escapePart : List Char → List Char
  | [] => []
  | c :: cs => escChar c ++ escapePart cs

/-- Modelled from the spec: invert `escapePart`, decoding escape pairs. -/
def unescapePart : List Char → List Char
  | [] => []
  | [c] => [c]
  | c1 :: c2 :: rest =>
    if c1 = '\\' then
      (if c2 = 's' then '/' else '\\') :: unescapePart rest
    else
      c1 :: unescapePart (c2 :: rest)

/-- Join already-escaped parts with the separator. -/
def joinParts : List (List Char) → List Char
  | [] => []
  | [p] => p
  | p :: ps => p ++ '/' :: joinParts ps

/-- Split an identifier on every separator occurrence. -/
def splitOnSep : List Char → List (List Char)
  | [] => [[]]
  | c :: cs =>
    if c = '/' then [] :: splitOnSep cs
    else
      match splitOnSep cs with
      | [] => [[c]]
      | p :: ps => (c :: p) :: ps

/-- Modelled from the spec: `buildResourceID` — encode an ordered sequence
of natural-key parts into one opaque identifier string. -/
def buildResourceID (parts : List String) : String :=
  ⟨joinParts (parts.map (fun s => escapePart s.data))⟩

/-- Modelled from the spec: `decode(id, expectedPartCount)` — split on the
separator, fail when the part count does not match, unescape each part. -/
def decodeResourceID (n : Nat) (id : String) : Option (List String) :=
  let raw := splitOnSep id.data
  if raw.length = n then some (raw.map (fun p => ⟨unescapePart p⟩)) else none

/-- Modelled from the spec: `splitResourceID2` — split an identifier into
its first part and the remainder (Go `strings.SplitN(id, "/", 2)`
semantics), unescaping both. -/
def splitFirstSep : List Char → List Char × List Char
  | [] => ([], [])
  | c :: cs =>
    if c = '/' then ([], cs)
    else
      let (a, b) := splitFirstSep cs
      (c :: a, b)

/-- Modelled from the spec: two-part identifier split used by the
read/update/delete/import handlers. -/
def splitResourceID2 (id : String) : String × String :=
  let (a, b) := splitFirstSep id.data
  (⟨unescapePart a⟩, ⟨unescapePart b⟩)

theorem unescapePart_escapePart (s : List Char) :
    unescapePart (escapePart s) = s := by
  induction s with
  | nil => rfl
  | cons c cs ih =>
    by_cases h1 : c = '/'
    · subst h1
      simp [escapePart, escChar, unescapePart, ih]
    · by_cases h2 : c = '\\'
      · subst h2
        simp [escapePart, escChar, unescapePart, ih]
      · have hesc : escapePart (c :: cs) = c :: escapePart cs := by
          simp [escapePart, escChar, h1, h2]
        rw [hesc]
        cases hE : escapePart cs with
        | nil =>
          rw [hE] at ih
          rw [← ih]
          rfl
        | cons d ds =>
          rw [show unescapePart (c :: d :: ds) = c :: unescapePart (d :: ds) by
            simp [unescapePart, h2]]
          rw [← hE, ih]

theorem sep_not_mem_escapePart (s : List Char) : '/' ∉ escapePart s := by
  induction s with
  | nil => simp [escapePart]
  | cons c cs ih =>
    simp only [escapePart, List.mem_append]
    rintro (h | h)
    · unfold escChar at h
      split_ifs at h with hA hB
      · simp at h
      · simp at h
      · simp at h
        exact hA h.symm
    · exact ih h

theorem splitOnSep_no_sep (p : List Char) (hp : '/' ∉ p) :
    splitOnSep p = [p] := by
  induction p with
  | nil => rfl
  | cons c cs ih =>
    have hc : c ≠ '/' := fun h => hp (by simp [h])
    have hcs : '/' ∉ cs := fun h => hp (by simp [h])
    simp [splitOnSep, hc, ih hcs]

theorem splitOnSep_append_sep (p rest : List Char) (hp : '/' ∉ p) :
    splitOnSep (p ++ '/' :: rest) = p :: splitOnSep rest := by
  induction p with
  | nil => simp [splitOnSep]
  | cons c cs ih =>
    have hc : c ≠ '/' := fun h => hp (by simp [h])
    have hcs : '/' ∉ cs := fun h => hp (by simp [h])
    have hstep : splitOnSep (c :: (cs ++ '/' :: rest)) =
        match splitOnSep (cs ++ '/' :: rest) with
        | [] => [[c]]
        | p :: ps => (c :: p) :: ps := by
      simp [splitOnSep, hc]
    rw [List.cons_append, hstep, ih hcs]

theorem splitOnSep_joinParts (ps : List (List Char)) (hne : ps ≠ [])
    (hsep : ∀ p ∈ ps, '/' ∉ p) :
    splitOnSep (joinParts ps) = ps := by
  induction ps with
  | nil => exact absurd rfl hne
  | cons p ps ih =>
    cases ps with
    | nil => exact splitOnSep_no_sep p (hsep p (by simp))
    | cons q qs =>
      have hjoin : joinParts (p :: q :: qs) = p ++ '/' :: joinParts (q :: qs) := rfl
      rw [hjoin, splitOnSep_append_sep p _ (hsep p (by simp))]
      rw [ih (by simp) (fun r hr => hsep r (by simp [hr]))]

/-! ## Declarative record (Terraform `ResourceData`)

The SDK's `ResourceData` is modelled as an identifier plus an
association list of field values; `d.Set` prepends (latest write wins),
`d.Get` reads the latest write, returning the Go zero value for strings
and booleans when the field is absent. -/

/-- A declarative field value: string, integer, boolean, list, or
nested object (string-keyed map, kept as an ordered association list). -/
inductive FieldValue where
  | str (s : String)
  | int (n : Int)
  | bool (b : Bool)
  | list (l : List FieldValue)
  | map (m : List (String × FieldValue))
  deriving Repr

/-- The declarative record: the composite identifier plus field values. -/
structure ResourceData where
  id : String
  fields : List (String × FieldValue)
  deriving Repr

/-- `d.Set(k, v)`: record a new value for field `k` (latest write wins). -/
def setField (d : ResourceData) (k : String) (v : FieldValue) : ResourceData :=
  { d with fields := (k, v) :: d.fields }

/-- `d.Set(k, v)` only when a value is present (models the source's
conditional `d.Set` calls guarded by nil / presence checks). -/
def setFieldIfSome (d : ResourceData) (k : String) : Option FieldValue → ResourceData
  | some v => setField d k v
  | none => d

/-- Latest value written for field `k`, if any. -/
def getField (d : ResourceData) (k : String) : Option FieldValue :=
  match d.fields.find? (fun p => p.1 = k) with
  | some p => some p.2
  | none => none

/-- `d.Get(k).(string)`: the latest string value, `""` when unset. -/
def getStr (d : ResourceData) (k : String) : String :=
  match getField d k with
  | some (.str s) => s
  | _ => ""

/-- `d.Get(k).(bool)`: the latest boolean value, `false` when unset. -/
def getBool (d : ResourceData) (k : String) : Bool :=
  match getField d k with
  | some (.bool b) => b
  | _ => false

theorem getField_setField (d : ResourceData) (k k' : String) (v : FieldValue) :
    getField (setField d k v) k' = if k = k' then some v else getField d k' := by
  by_cases h : k = k'
  · simp [getField, setField, List.find?, h]
  · simp [getField, setField, List.find?, h]

theorem getField_setFieldIfSome_ne (d : ResourceData) (k k' : String)
    (o : Option FieldValue) (h : k ≠ k') :
    getField (setFieldIfSome d k o) k' = getField d k' := by
  cases o with
  | none => rfl
  | some v => simp [setFieldIfSome, getField_setField, h]

theorem getStr_setField_ne (d : ResourceData) (k k' : String) (v : FieldValue)
    (h : k ≠ k') : getStr (setField d k v) k' = getStr d k' := by
  simp [getStr, getField_setField, h]

/-! ## Remote API data model (`aiven-go-client` types as used here) -/

/-- An error returned by the remote API (`aiven.Error`).  `aiven.IsNotFound`
reports whether the status is 404. -/
structure ApiError where
  status : Nat
  message : String
  deriving Repr, DecidableEq

/-- `aiven.IsNotFound`: the remote reported the resource absent. -/
def isNotFound (e : ApiError) : Bool := e.status = 404

/-- `aiven.MaintenanceWindow`: day-of-week plus time-of-day. -/
structure MaintenanceWindow where
  dayOfWeek : String
  timeOfDay : String
  deriving Repr, DecidableEq

/-- `aiven.ServiceComponent`: one named network endpoint of a running
service, with its optional encryption flag and optional per-component
Kafka authentication method as reported by the remote. -/
structure ServiceComponent where
  component : String
  host : String
  port : Int
  route : String
  usage : String
  ssl : Option Bool
  kafkaAuthenticationMethod : Option String
  deriving Repr

/-- PostgreSQL connection parameters from `aiven.ConnectionInfo`. -/
structure PostgresParams where
  databaseName : String
  host : String
  password : String
  port : String
  sslMode : String
  user : String
  deriving Repr

/-- `aiven.ConnectionInfo`: the typed connection information, with the
fields read by `copyConnectionInfoFromAPIResponseToTerraform`. -/
structure ConnectionInfo where
  opensearchDashboardsURI : String := ""
  kibanaURI : String := ""
  influxDBDatabaseName : String := ""
  kafkaAccessCert : String := ""
  kafkaAccessKey : String := ""
  kafkaConnectURI : String := ""
  kafkaRestURI : String := ""
  schemaRegistryURI : String := ""
  postgresURIs : List String := []
  postgresParams : List PostgresParams := []
  postgresReplicaURI : String := ""
  flinkHostPorts : List String := []
  deriving Repr

/-- `aiven.Service`: the remote representation of a service. -/
structure Service where
  name : String
  type : String
  cloudName : String
  state : String
  plan : String
  terminationProtection : Bool
  maintenanceWindow : MaintenanceWindow
  uri : String
  projectVPCID : Option String
  userConfig : FieldValue
  uriParams : List (String × String)
  components : List ServiceComponent
  connectionInfo : ConnectionInfo
  deriving Repr

/-- A declared service integration (`source_service_name` +
`integration_type`). -/
structure ServiceIntegration where
  sourceServiceName : String
  integrationType : String
  deriving Repr, DecidableEq

/-- A remote API call issued by a lifecycle handler. -/
inductive RemoteCall where
  | create
  | get
  | update
  | delete
  deriving Repr, DecidableEq

/-! ## Service type constants and schema-level validation -/

def ServiceTypePG : String := "pg"
def ServiceTypeCassandra : String := "cassandra"
def ServiceTypeElasticsearch : String := "elasticsearch"
def ServiceTypeOpensearch : String := "opensearch"
def ServiceTypeGrafana : String := "grafana"
def ServiceTypeInfluxDB : String := "influxdb"
def ServiceTypeRedis : String := "redis"
def ServiceTypeMySQL : String := "mysql"
def ServiceTypeKafka : String := "kafka"
def ServiceTypeKafkaConnect : String := "kafka_connect"
def ServiceTypeKafkaMirrormaker : String := "kafka_mirrormaker"
def ServiceTypeM3 : String := "m3db"
def ServiceTypeM3Aggregator : String := "m3aggregator"
def ServiceTypeFlink : String := "flink"

/-- `availableServiceTypes`: the closed enumeration of supported
service types. -/
def availableServiceTypes : List String :=
  [ ServiceTypePG,
    ServiceTypeCassandra,
    ServiceTypeElasticsearch,
    ServiceTypeGrafana,
    ServiceTypeInfluxDB,
    ServiceTypeRedis,
    ServiceTypeMySQL,
    ServiceTypeKafka,
    ServiceTypeKafkaConnect,
    ServiceTypeKafkaMirrormaker,
    ServiceTypeM3,
    ServiceTypeM3Aggregator,
    ServiceTypeOpensearch,
    ServiceTypeFlink ]

/-- The schema's `ValidateFunc` on `service_type`:
`validation.StringInSlice(availableServiceTypes(), false)` accepts
exactly the members of the closed enumeration (case-sensitively). -/
def validateServiceType (s : String) : Bool :=
  decide (s ∈ availableServiceTypes)

/-- The field keys of one entry of the `components` schema block. -/
def componentSchemaKeys : List String :=
  ["component", "host", "kafka_authentication_method", "port", "route", "ssl", "usage"]

/-! ## Helpers shared by the handlers -/

/-- `service.URIParams[k]`: Go map read, `""` when the key is absent. -/
def lookupParam (params : List (String × String)) (k : String) : String :=
  match params.find? (fun p => p.1 = k) with
  | some p => p.2
  | none => ""

/-- `v, ok := service.URIParams[k]`: Go map read with presence flag. -/
def lookupParamOpt (params : List (String × String)) (k : String) : Option String :=
  match params.find? (fun p => p.1 = k) with
  | some p => some p.2
  | none => none

/-- `strconv.ParseInt(s, 10, 32)` with its error: `none` on a syntax or
32-bit range error.  (On a range error Go additionally returns a clamped
value; no caller in this source uses that value.) -/
def parseInt32 (s : String) : Option Int :=
  match s.toInt? with
  | some v => if -(2 ^ 31) ≤ v ∧ v ≤ 2 ^ 31 - 1 then some v else none
  | none => none

/-- `getMaintenanceWindow`: a maintenance window is sent exactly when
both the day-of-week and the time-of-day fields are non-empty. -/
def getMaintenanceWindow (d : ResourceData) : Option MaintenanceWindow :=
  let dow := getStr d "maintenance_window_dow"
  let t := getStr d "maintenance_window_time"
  if dow.length > 0 ∧ t.length > 0 then
    some { dayOfWeek := dow, timeOfDay := t }
  else
    none

/-- `flattenServiceComponents`: one entry per remote component, carrying
component name, host, port, route and usage (and nothing else). -/
def flattenServiceComponents (r : Service) : List FieldValue :=
  r.components.map (fun c =>
    .map [ ("component", .str c.component),
           ("host", .str c.host),
           ("port", .int c.port),
           ("route", .str c.route),
           ("usage", .str c.usage) ])

/-- The per-service-type `props` object built by the `switch` in
`copyConnectionInfoFromAPIResponseToTerraform`; `none` is the
`default` branch, which panics in the source. -/
def connectionInfoProps (serviceType : String) (ci : ConnectionInfo) :
    Option (List (String × FieldValue)) :=
  if serviceType = ServiceTypeCassandra then some []
  else if serviceType = ServiceTypeOpensearch then
    some [("opensearch_dashboards_uri", .str ci.opensearchDashboardsURI)]
  else if serviceType = ServiceTypeElasticsearch then
    some [("kibana_uri", .str ci.kibanaURI)]
  else if serviceType = ServiceTypeGrafana then some []
  else if serviceType = ServiceTypeInfluxDB then
    some [("database_name", .str ci.influxDBDatabaseName)]
  else if serviceType = ServiceTypeKafka then
    some [ ("access_cert", .str ci.kafkaAccessCert),
           ("access_key", .str ci.kafkaAccessKey),
           ("connect_uri", .str ci.kafkaConnectURI),
           ("rest_uri", .str ci.kafkaRestURI),
           ("schema_registry_uri", .str ci.schemaRegistryURI) ]
  else if serviceType = ServiceTypeKafkaConnect then some []
  else if serviceType = ServiceTypeMySQL then some []
  else if serviceType = ServiceTypePG then
    some ((match ci.postgresURIs with
            | u :: _ => [("uri", FieldValue.str u)]
            | [] => [])
      ++ (match ci.postgresParams with
            | p :: _ =>
              [ ("dbname", FieldValue.str p.databaseName),
                ("host", FieldValue.str p.host),
                ("password", FieldValue.str p.password) ]
              ++ (match parseInt32 p.port with
                    | some v => [("port", FieldValue.int v)]
                    | none => [])
              ++ [ ("sslmode", FieldValue.str p.sslMode),
                   ("user", FieldValue.str p.user) ]
            | [] => [])
      ++ [("replica_uri", .str ci.postgresReplicaURI)])
  else if serviceType = ServiceTypeRedis then some []
  else if serviceType = ServiceTypeFlink then
    some [("host_ports", .list (ci.flinkHostPorts.map FieldValue.str))]
  else if serviceType = ServiceTypeKafkaMirrormaker then some []
  else if serviceType = ServiceTypeM3 then some []
  else if serviceType = ServiceTypeM3Aggregator then some []
  else none

/-- `copyConnectionInfoFromAPIResponseToTerraform`: set the service-type
block to a one-element list holding the projected props; `none` models
the fatal `panic` on an unsupported service type. -/
def copyConnectionInfoFromAPIResponseToTerraform (d : ResourceData)
    (serviceType : String) (connectionInfo : ConnectionInfo) :
    Option ResourceData :=
  match connectionInfoProps serviceType connectionInfo with
  | some props => some (setField d serviceType (.list [.map props]))
  | none => none

/-- The effective service type used by the copy-back step: the record's
`service_type` when `GetOk` reports it set (non-zero), the remote's
reported type otherwise. -/
def effectiveServiceType (d : ResourceData) (service : Service) : String :=
  let s := getStr d "service_type"
  if s = "" then service.type else s

/-- `copyServicePropertiesFromAPIResponseToTerraform`: copy every remote
field back into the declarative record, in source order.  The user-config
translator (`ConvertAPIUserConfigToTerraformCompatibleFormat`) is not in
the provided sources and is passed in as `conv`; only the key it is
stored under matters to the claims below. -/
def copyServicePropertiesFromAPIResponseToTerraform
    (conv : FieldValue → FieldValue) (d : ResourceData) (service : Service)
    (project : String) : Option ResourceData :=
  let serviceType := effectiveServiceType d service
  let d := setField d "cloud_name" (.str service.cloudName)
  let d := setField d "service_name" (.str service.name)
  let d := setField d "state" (.str service.state)
  let d := setField d "plan" (.str service.plan)
  let d := setField d "service_type" (.str serviceType)
  let d := setField d "termination_protection" (.bool service.terminationProtection)
  let d := setField d "maintenance_window_dow" (.str service.maintenanceWindow.dayOfWeek)
  let d := setField d "maintenance_window_time" (.str service.maintenanceWindow.timeOfDay)
  let d := setField d "service_uri" (.str service.uri)
  let d := setField d "project" (.str project)
  let d := setFieldIfSome d "project_vpc_id"
    (service.projectVPCID.map (fun v => .str (buildResourceID [project, v])))
  let d := setField d (serviceType ++ "_user_config") (conv service.userConfig)
  let d := setField d "service_host" (.str (lookupParam service.uriParams "host"))
  let d := setField d "service_port" (.int ((parseInt32 (lookupParam service.uriParams "port")).getD 0))
  let d := setFieldIfSome d "service_password"
    ((lookupParamOpt service.uriParams "password").map FieldValue.str)
  let d := setFieldIfSome d "service_username"
    ((lookupParamOpt service.uriParams "user").map FieldValue.str)
  let d := setField d "components" (.list (flattenServiceComponents service))
  copyConnectionInfoFromAPIResponseToTerraform d serviceType service.connectionInfo

/-! ## Lifecycle handlers -/

/-- The per-service-type computed blocks cleared by the generic
(`serviceType == "service"`) branch of `resourceServiceCreateWrapper`,
in the order of its `d.Set` calls. -/
def genericPreSeedTypes : List String :=
  [ ServiceTypeCassandra,
    ServiceTypeElasticsearch,
    ServiceTypeGrafana,
    ServiceTypeInfluxDB,
    ServiceTypeKafka,
    ServiceTypeKafkaConnect,
    ServiceTypeKafkaMirrormaker,
    ServiceTypeMySQL,
    ServiceTypePG,
    ServiceTypeRedis,
    ServiceTypeOpensearch,
    ServiceTypeFlink ]

/-- The pre-seeding performed by the generic branch of
`resourceServiceCreateWrapper`: every block in `genericPreSeedTypes` is
set to an empty list before `resourceServiceCreate` runs. -/
def preSeedServiceBlocks (d : ResourceData) : ResourceData :=
  genericPreSeedTypes.foldl (fun d t => setField d t (.list [])) d

/-- `aiven.NewServiceIntegration` as built by `resourceServiceCreate`. -/
structure NewServiceIntegration where
  integrationType : String
  sourceService : String
  deriving Repr, DecidableEq

/-- `aiven.CreateServiceRequest` as built by `resourceServiceCreate`.
The user-config translation (`ConvertTerraformUserConfigToAPICompatibleFormat`)
is not in the provided sources; the request stores the raw declarative
value it would be derived from. -/
structure CreateServiceRequest where
  cloud : String
  maintenanceWindow : Option MaintenanceWindow
  plan : String
  projectVPCID : Option String
  serviceIntegrations : List NewServiceIntegration
  serviceName : String
  serviceType : String
  terminationProtection : Bool
  deriving Repr

/-- `aiven.UpdateServiceRequest` as built by `resourceServiceUpdate`. -/
structure UpdateServiceRequest where
  cloud : String
  maintenanceWindow : Option MaintenanceWindow
  plan : String
  projectVPCID : Option String
  powered : Bool
  terminationProtection : Bool
  deriving Repr

/-- The `vpcIDPointer` computation shared by create and update: when the
declared `project_vpc_id` is non-empty, its second identifier part. -/
def vpcIDPointer (d : ResourceData) : Option String :=
  let vpcID := getStr d "project_vpc_id"
  if vpcID.length > 0 then some (splitResourceID2 vpcID).2 else none

/-- The create request submitted by `resourceServiceCreate`.
`integrations` is the declared `service_integrations` list as read by
`d.Get`. -/
def buildCreateRequest (d : ResourceData)
    (integrations : List ServiceIntegration) : CreateServiceRequest :=
  { cloud := getStr d "cloud_name",
    maintenanceWindow := getMaintenanceWindow d,
    plan := getStr d "plan",
    projectVPCID := vpcIDPointer d,
    serviceIntegrations := integrations.map (fun i =>
      { integrationType := i.integrationType, sourceService := i.sourceServiceName }),
    serviceName := getStr d "service_name",
    serviceType := getStr d "service_type",
    terminationProtection := getBool d "termination_protection" }

/-- The update request submitted by `resourceServiceUpdate`. -/
def buildUpdateRequest (d : ResourceData) : UpdateServiceRequest :=
  { cloud := getStr d "cloud_name",
    maintenanceWindow := getMaintenanceWindow d,
    plan := getStr d "plan",
    projectVPCID := vpcIDPointer d,
    powered := true,
    terminationProtection := getBool d "termination_protection" }

/-- The state transformation of a successful generic-resource Create
(`resourceServiceCreateWrapper("service")` followed by
`resourceServiceCreate` through the copy-back): pre-seed every generic
block, assign the composite identity, copy the final remote
representation back.  `service` is the final representation returned by
the change waiter. -/
def createGenericService (conv : FieldValue → FieldValue) (d : ResourceData)
    (service : Service) (project : String) : Option ResourceData :=
  let d := preSeedServiceBlocks d
  let d := { d with id := buildResourceID [project, service.name] }
  copyServicePropertiesFromAPIResponseToTerraform conv d service project

/-- Outcome of a Read. -/
inductive ReadResult where
  | ok
  | droppedRecord
  | failed (e : ApiError)
  | panicked
  deriving Repr, DecidableEq

/-- Result record of `resourceServiceRead`. -/
structure ReadOutcome where
  result : ReadResult
  data : ResourceData
  calls : List RemoteCall
  deriving Repr

/-- `resourceServiceRead`: fetch the remote state for the record's
identity and copy it back.  `getResult` is the remote's response to the
single `Services.Get` call.  The not-found handling
(`resourceReadHandleNotFound`, not in the provided sources) is modelled
from the spec: a not-found Get clears the identifier and succeeds, any
other error propagates. -/
def resourceServiceRead (conv : FieldValue → FieldValue) (d : ResourceData)
    (getResult : Except ApiError Service) : ReadOutcome :=
  let projectName := (splitResourceID2 d.id).1
  match getResult with
  | .error e =>
    if isNotFound e then
      { result := .droppedRecord, data := { d with id := "" }, calls := [.get] }
    else
      { result := .failed e, data := d, calls := [.get] }
  | .ok service =>
    match copyServicePropertiesFromAPIResponseToTerraform conv d service projectName with
    | some d2 => { result := .ok, data := d2, calls := [.get] }
    | none => { result := .panicked, data := d, calls := [.get] }

/-- Result record of `resourceServiceUpdate`. -/
structure UpdateOutcome where
  validationFailed : Bool
  result : ReadResult
  data : ResourceData
  calls : List RemoteCall
  deriving Repr

/-- `resourceServiceUpdate`: reject a changed, non-empty
`service_integrations` list before issuing any remote call, otherwise
submit the update request and copy the waiter's final representation
back.  `oldIntegrations` is the prior state, `newIntegrations` the
planned value read by `d.Get` (`d.HasChanges` is their disequality);
`updateResult` scripts the remote `Services.Update` response and
`waitResult` the waiter outcome (its own polling calls are modelled by
`runWaiter` separately). -/
def resourceServiceUpdate (conv : FieldValue → FieldValue) (d : ResourceData)
    (oldIntegrations newIntegrations : List ServiceIntegration)
    (updateResult : Option ApiError) (waitResult : Except ApiError Service) :
    UpdateOutcome :=
  if oldIntegrations ≠ newIntegrations ∧ newIntegrations.length ≠ 0 then
    { validationFailed := true, result := .failed ⟨0, "service_integrations field can only be set during creation of a service"⟩,
      data := d, calls := [] }
  else
    let projectName := (splitResourceID2 d.id).1
    match updateResult with
    | some e => { validationFailed := false, result := .failed e, data := d, calls := [.update] }
    | none =>
      match waitResult with
      | .error e => { validationFailed := false, result := .failed e, data := d, calls := [.update] }
      | .ok service =>
        match copyServicePropertiesFromAPIResponseToTerraform conv d service projectName with
        | some d2 => { validationFailed := false, result := .ok, data := d2, calls := [.update] }
        | none => { validationFailed := false, result := .panicked, data := d, calls := [.update] }

/-- `resourceServiceDelete`: issue the delete; a not-found error from
the remote is success, any other error propagates.  `deleteResult` is
the remote's response (`none` = deleted cleanly). -/
def resourceServiceDelete (deleteResult : Option ApiError) : Option ApiError :=
  match deleteResult with
  | some e => if isNotFound e then none else some e
  | none => none

/-! ## Change waiter

Modelled from the spec: `ServiceChangeWaiter` is not in the provided
sources (only its caller `resourceServiceWait` is).  §4.3: poll the
remote Read, classify each observed state into pending /
terminal-success / terminal-failure, keep polling while pending, return
the final representation on success, fail with `OperationTimedOut` when
the budget elapses while pending, fail with `OperationFailed` carrying
the remote's failure detail on terminal failure. -/

/-- One observed remote state, already classified. -/
inductive RemoteOpState where
  | pending
  | running (repr : Service)
  | failed (detail : String)

/-- Waiter failure modes. -/
inductive WaitFailure where
  | operationTimedOut
  | operationFailed (detail : String)
  deriving Repr, DecidableEq

/-- Modelled from the spec: the waiter's polling loop.  `script i` is
the remote state observed by poll number `i`; `fuel` is the timeout
budget in polls.  Returns the outcome and the number of polls issued. -/
def runWaiter (script : Nat → RemoteOpState) :
    Nat → Nat → Except WaitFailure Service × Nat
  | 0, _ => (.error .operationTimedOut, 0)
  | fuel + 1, i =>
    match script i with
    | .running r => (.ok r, 1)
    | .failed detail => (.error (.operationFailed detail), 1)
    | .pending =>
      let (res, n) := runWaiter script fuel (i + 1)
      (res, n + 1)

/-! ## Sample values used by witnesses and counterexamples -/

/-- A concrete remote service representation. -/
def sampleService : Service :=
  { name := "svc1",
    type := "pg",
    cloudName := "google-europe-west1",
    state := "RUNNING",
    plan := "startup-4",
    terminationProtection := false,
    maintenanceWindow := { dayOfWeek := "monday", timeOfDay := "10:00:00" },
    uri := "postgres://h:5432/db",
    projectVPCID := none,
    userConfig := .map [],
    uriParams := [("host", "h"), ("port", "5432")],
    components := [],
    connectionInfo := {} }

/-- A concrete declarative record as a user would declare it before
Create: natural keys and inputs, no computed blocks. -/
def sampleData : ResourceData :=
  { id := "",
    fields := [ ("project", .str "proj1"),
                ("service_name", .str "svc1"),
                ("service_type", .str "pg"),
                ("plan", .str "startup-4") ] }

/-! ## Shared helper lemmas -/

theorem string_length_pos_iff (s : String) : 0 < s.length ↔ s ≠ "" := by
  cases s with
  | mk l =>
    cases l with
    | nil => exact ⟨fun h => absurd h (by decide), fun h => absurd rfl h⟩
    | cons c cs =>
      refine ⟨fun _ h => ?_, fun _ => ?_⟩
      · exact absurd (congrArg String.data h) (by simp)
      · simp [String.length]

theorem connectionInfoProps_isSome_iff (serviceType : String) (ci : ConnectionInfo) :
    (connectionInfoProps serviceType ci).isSome = true
      ↔ serviceType ∈ availableServiceTypes := by
  constructor
  · intro h
    by_contra hmem
    simp only [availableServiceTypes, List.mem_cons, List.not_mem_nil, or_false,
      not_or] at hmem
    obtain ⟨hPG, hCas, hEs, hGra, hInf, hRed, hMy, hKaf, hKC, hKMM, hM3, hM3A, hOs, hFl⟩ := hmem
    unfold connectionInfoProps at h
    rw [if_neg hCas, if_neg hOs, if_neg hEs, if_neg hGra, if_neg hInf, if_neg hKaf,
      if_neg hKC, if_neg hMy, if_neg hPG, if_neg hRed, if_neg hFl, if_neg hKMM,
      if_neg hM3, if_neg hM3A] at h
    exact Bool.false_ne_true h
  · intro hmem
    simp only [availableServiceTypes, List.mem_cons, List.not_mem_nil, or_false] at hmem
    rcases hmem with rfl | rfl | rfl | rfl | rfl | rfl | rfl | rfl | rfl | rfl | rfl | rfl | rfl | rfl <;> rfl

theorem copyConnectionInfo_isSome_iff (d : ResourceData) (serviceType : String)
    (ci : ConnectionInfo) :
    (copyConnectionInfoFromAPIResponseToTerraform d serviceType ci).isSome = true
      ↔ serviceType ∈ availableServiceTypes := by
  have hsame : (copyConnectionInfoFromAPIResponseToTerraform d serviceType ci).isSome
      = (connectionInfoProps serviceType ci).isSome := by
    unfold copyConnectionInfoFromAPIResponseToTerraform
    cases connectionInfoProps serviceType ci
    · rfl
    · rfl
  rw [hsame, connectionInfoProps_isSome_iff]

/-! ## C1 — identity codec round-trip -/

/-- C1: for every sequence of 2 to 4 string parts — including parts that
contain the separator and empty parts — decoding the encoded composite
identity with the matching part count yields exactly the original
ordered parts. -/
theorem identity_codec_round_trip (parts : List String)
    (h2 : 2 ≤ parts.length) (h4 : parts.length ≤ 4) :
    decodeResourceID parts.length (buildResourceID parts) = some parts := by
  have hpne : parts ≠ [] := by
    intro h
    subst h
    simp at h2
  have hne : parts.map (fun s => escapePart s.data) ≠ [] := by
    simpa using hpne
  have hsep : ∀ p ∈ parts.map (fun s => escapePart s.data), '/' ∉ p := by
    intro p hp
    simp only [List.mem_map] at hp
    obtain ⟨s, _, rfl⟩ := hp
    exact sep_not_mem_escapePart s.data
  unfold decodeResourceID buildResourceID
  show (if (splitOnSep (joinParts (parts.map fun s => escapePart s.data))).length = parts.length
        then some ((splitOnSep (joinParts (parts.map fun s => escapePart s.data))).map
          (fun p => (⟨unescapePart p⟩ : String)))
        else none) = some parts
  rw [splitOnSep_joinParts _ hne hsep, List.map_map, List.length_map, if_pos rfl]
  have hid : ∀ s : String, ((⟨unescapePart (escapePart s.data)⟩ : String)) = s := by
    intro s
    cases s with
    | mk l => rw [unescapePart_escapePart]
  have hmap : parts.map ((fun p => (⟨unescapePart p⟩ : String)) ∘ fun s => escapePart s.data)
      = parts.map id := by
    apply List.map_congr_left
    intro a _
    exact hid a
  rw [hmap, List.map_id]

/-- Witness for C1: three parts, one containing the separator, one empty,
one containing the escape character. -/
theorem identity_codec_round_trip_witness :
    2 ≤ (["a/b", "", "x\\y"] : List String).length
    ∧ (["a/b", "", "x\\y"] : List String).length ≤ 4
    ∧ decodeResourceID 3 (buildResourceID ["a/b", "", "x\\y"]) = some ["a/b", "", "x\\y"] :=
  ⟨by decide, by decide,
    identity_codec_round_trip ["a/b", "", "x\\y"] (by decide) (by decide)⟩

/-! ## C4 — delete idempotence -/

/-- C4: a remote not-found on delete is success; any other remote error
propagates; a clean delete succeeds. -/
theorem delete_idempotence (e : ApiError) :
    (isNotFound e = true → resourceServiceDelete (some e) = none)
    ∧ (isNotFound e = false → resourceServiceDelete (some e) = some e)
    ∧ resourceServiceDelete none = none := by
  refine ⟨fun h => ?_, fun h => ?_, rfl⟩ <;> simp [resourceServiceDelete, h]

/-- Witness for C4 at a 404 and a 500 error. -/
theorem delete_idempotence_witness :
    resourceServiceDelete (some ⟨404, "Service not found"⟩) = none
    ∧ resourceServiceDelete (some ⟨500, "internal error"⟩) = some ⟨500, "internal error"⟩ :=
  ⟨(delete_idempotence ⟨404, "Service not found"⟩).1 (by decide),
   (delete_idempotence ⟨500, "internal error"⟩).2.1 (by decide)⟩

/-! ## C6 — maintenance window pairing -/

/-- C6: the create and update requests carry a maintenance window exactly
when both the day-of-week and the time-of-day fields are non-empty. -/
theorem maintenance_window_pairing (d : ResourceData)
    (integrations : List ServiceIntegration) :
    ((buildCreateRequest d integrations).maintenanceWindow.isSome = true
      ↔ getStr d "maintenance_window_dow" ≠ "" ∧ getStr d "maintenance_window_time" ≠ "")
    ∧ ((buildUpdateRequest d).maintenanceWindow.isSome = true
      ↔ getStr d "maintenance_window_dow" ≠ "" ∧ getStr d "maintenance_window_time" ≠ "") := by
  have h : (getMaintenanceWindow d).isSome = true
      ↔ getStr d "maintenance_window_dow" ≠ "" ∧ getStr d "maintenance_window_time" ≠ "" := by
    have hdef : getMaintenanceWindow d
        = if 0 < (getStr d "maintenance_window_dow").length
            ∧ 0 < (getStr d "maintenance_window_time").length
          then some { dayOfWeek := getStr d "maintenance_window_dow",
                      timeOfDay := getStr d "maintenance_window_time" }
          else none := rfl
    rw [hdef]
    split_ifs with hc
    · simp only [Option.isSome_some, true_iff]
      rw [← string_length_pos_iff, ← string_length_pos_iff]
      exact hc
    · simp only [Option.isSome_none, Bool.false_eq_true, false_iff]
      rw [← string_length_pos_iff, ← string_length_pos_iff]
      exact hc
  exact ⟨h, h⟩

/-! ## C7 — connection-info projection totality -/

/-- C7: the connection-info projection succeeds (never reaches the fatal
unsupported-type branch) exactly for service types inside the closed
enumeration, and every service type accepted by the schema's boundary
validation is inside it. -/
theorem connection_info_projection_total (serviceType : String)
    (ci : ConnectionInfo) (d : ResourceData) :
    ((copyConnectionInfoFromAPIResponseToTerraform d serviceType ci).isSome = true
      ↔ serviceType ∈ availableServiceTypes)
    ∧ (validateServiceType serviceType = true →
      (copyConnectionInfoFromAPIResponseToTerraform d serviceType ci).isSome = true) := by
  refine ⟨copyConnectionInfo_isSome_iff d serviceType ci, fun hv => ?_⟩
  rw [copyConnectionInfo_isSome_iff d serviceType ci]
  exact of_decide_eq_true (by simpa [validateServiceType] using hv)

/-- Witness for C7 at the validated type `pg`. -/
theorem connection_info_projection_total_witness :
    validateServiceType "pg" = true
    ∧ (copyConnectionInfoFromAPIResponseToTerraform ⟨"", []⟩ "pg" {}).isSome = true :=
  ⟨by decide, (connection_info_projection_total "pg" {} ⟨"", []⟩).2 (by decide)⟩

/-! ## C8 — waiter terminal classification -/

/-- C8: with states [pending, pending, running] the waiter returns the
final representation after exactly 3 polls; with indefinitely pending
states and a 2-poll budget it fails with OperationTimedOut after 2
polls; with [pending, failed] it fails with OperationFailed carrying the
remote's failure detail. -/
theorem waiter_terminal_classification :
    runWaiter (fun i => if i < 2 then .pending else .running sampleService) 10 0
      = (.ok sampleService, 3)
    ∧ runWaiter (fun _ => .pending) 2 0 = (.error .operationTimedOut, 2)
    ∧ runWaiter (fun i => if i = 0 then .pending else .failed "disk full") 10 0
      = (.error (.operationFailed "disk full"), 2) :=
  ⟨rfl, rfl, rfl⟩

/-! ## C3 — update rejection of integration changes -/

/-- C3 counterexample: an update that removes all integrations (changes
the list from one entry to empty) is a change, yet passes the validation
guard and reaches the remote update call. -/
theorem update_rejection_counterexample :
    ([⟨"src-svc", "read_replica"⟩] : List ServiceIntegration) ≠ []
    ∧ (resourceServiceUpdate (fun c => c) ⟨"p/s", []⟩
        [⟨"src-svc", "read_replica"⟩] [] none (.ok sampleService)).validationFailed = false
    ∧ (resourceServiceUpdate (fun c => c) ⟨"p/s", []⟩
        [⟨"src-svc", "read_replica"⟩] [] none (.ok sampleService)).calls = [.update] :=
  ⟨by decide, rfl, rfl⟩

/-- C3 (amended): an update whose declarative input changes the
`service_integrations` list to a non-empty value fails with a validation
error before any remote call is made (so the remote state is unchanged);
changing the list to an empty value is not rejected. -/
theorem update_rejection_amended (conv : FieldValue → FieldValue) (d : ResourceData)
    (oldIntegrations newIntegrations : List ServiceIntegration)
    (updateResult : Option ApiError) (waitResult : Except ApiError Service)
    (hchange : oldIntegrations ≠ newIntegrations) (hne : newIntegrations ≠ []) :
    (resourceServiceUpdate conv d oldIntegrations newIntegrations
      updateResult waitResult).validationFailed = true
    ∧ (resourceServiceUpdate conv d oldIntegrations newIntegrations
      updateResult waitResult).calls = [] := by
  have hcond : oldIntegrations ≠ newIntegrations ∧ newIntegrations.length ≠ 0 :=
    ⟨hchange, fun h => hne (List.length_eq_zero.mp h)⟩
  unfold resourceServiceUpdate
  rw [if_pos hcond]
  exact ⟨rfl, rfl⟩

/-- Witness for the amended C3: adding an integration post-creation is
rejected with no remote call. -/
theorem update_rejection_amended_witness :
    (([] : List ServiceIntegration) ≠ [⟨"src-svc", "read_replica"⟩])
    ∧ (resourceServiceUpdate (fun c => c) ⟨"p/s", []⟩
        [] [⟨"src-svc", "read_replica"⟩] none (.ok sampleService)).validationFailed = true
    ∧ (resourceServiceUpdate (fun c => c) ⟨"p/s", []⟩
        [] [⟨"src-svc", "read_replica"⟩] none (.ok sampleService)).calls = [] :=
  ⟨by decide,
   (update_rejection_amended (fun c => c) ⟨"p/s", []⟩ [] [⟨"src-svc", "read_replica"⟩]
     none (.ok sampleService) (by decide) (by decide)).1,
   (update_rejection_amended (fun c => c) ⟨"p/s", []⟩ [] [⟨"src-svc", "read_replica"⟩]
     none (.ok sampleService) (by decide) (by decide)).2⟩

/-! ## C5 — read not-found semantics -/

/-- C5: a not-found Get makes Read drop the local record (clear the
identifier) without error; any other Get error fails the Read; a
successful Get copies the remote fields back; and Read only ever issues
the single Get call — no mutating remote call. -/
theorem read_not_found_semantics (conv : FieldValue → FieldValue) (d : ResourceData)
    (e : ApiError) (service : Service) (d2 : ResourceData) :
    (isNotFound e = true →
      resourceServiceRead conv d (.error e)
        = { result := .droppedRecord, data := { d with id := "" }, calls := [.get] })
    ∧ (isNotFound e = false →
      resourceServiceRead conv d (.error e)
        = { result := .failed e, data := d, calls := [.get] })
    ∧ (copyServicePropertiesFromAPIResponseToTerraform conv d service
        (splitResourceID2 d.id).1 = some d2 →
      resourceServiceRead conv d (.ok service)
        = { result := .ok, data := d2, calls := [.get] })
    ∧ (resourceServiceRead conv d (.ok service)).calls = [.get]
    ∧ (resourceServiceRead conv d (.error e)).calls = [.get] := by
  refine ⟨fun h => ?_, fun h => ?_, fun h => ?_, ?_, ?_⟩
  · simp [resourceServiceRead, h]
  · simp [resourceServiceRead, h]
  · simp [resourceServiceRead, h]
  · cases hc : copyServicePropertiesFromAPIResponseToTerraform conv d service
      (splitResourceID2 d.id).1 <;> simp [resourceServiceRead, hc]
  · cases hn : isNotFound e <;> simp [resourceServiceRead, hn]

/-- Witness for C5 at a 404, a 500, and a successful Get. -/
theorem read_not_found_semantics_witness :
    isNotFound ⟨404, "nf"⟩ = true
    ∧ resourceServiceRead (fun c => c) sampleData (.error ⟨404, "nf"⟩)
        = { result := .droppedRecord, data := { sampleData with id := "" }, calls := [.get] }
    ∧ isNotFound ⟨500, "boom"⟩ = false
    ∧ resourceServiceRead (fun c => c) sampleData (.error ⟨500, "boom"⟩)
        = { result := .failed ⟨500, "boom"⟩, data := sampleData, calls := [.get] }
    ∧ resourceServiceRead (fun c => c) sampleData (.ok sampleService)
        = { result := .ok,
            data := (copyServicePropertiesFromAPIResponseToTerraform (fun c => c)
              sampleData sampleService (splitResourceID2 sampleData.id).1).getD sampleData,
            calls := [.get] } :=
  ⟨by decide,
   (read_not_found_semantics (fun c => c) sampleData ⟨404, "nf"⟩ sampleService sampleData).1
     (by decide),
   by decide,
   (read_not_found_semantics (fun c => c) sampleData ⟨500, "boom"⟩ sampleService sampleData).2.1
     (by decide),
   (read_not_found_semantics (fun c => c) sampleData ⟨404, "nf"⟩ sampleService
     ((copyServicePropertiesFromAPIResponseToTerraform (fun c => c) sampleData sampleService
       (splitResourceID2 sampleData.id).1).getD sampleData)).2.2.1 rfl⟩

/-! ## C9 — component reconciliation -/

/-- C9 (code-bug evidence): the component schema declares `ssl` and
`kafka_authentication_method` keys, the remote reports both, yet the
flattened components entry carries only component, host, port, route
and usage — the two optional fields are dropped. -/
theorem component_flatten_drops_ssl :
    "ssl" ∈ componentSchemaKeys
    ∧ "kafka_authentication_method" ∈ componentSchemaKeys
    ∧ flattenServiceComponents
        { sampleService with components :=
            [ { component := "kafka", host := "h1", port := 9092, route := "dynamic",
                usage := "primary", ssl := some false,
                kafkaAuthenticationMethod := some "certificate" } ] }
      = [ .map [ ("component", .str "kafka"), ("host", .str "h1"), ("port", .int 9092),
                 ("route", .str "dynamic"), ("usage", .str "primary") ] ] :=
  ⟨by decide, by decide, rfl⟩

/-! ## Frame lemmas for the copy-back step -/

theorem setFieldIfSome_none (d : ResourceData) (k : String) :
    setFieldIfSome d k none = d := rfl

theorem getField_withId (d : ResourceData) (s k : String) :
    getField { d with id := s } k = getField d k := rfl

theorem getField_foldl_setField_ne (keys : List String) (d : ResourceData) (k : String)
    (hk : k ∉ keys) :
    getField (keys.foldl (fun d t => setField d t (.list [])) d) k = getField d k := by
  induction keys generalizing d with
  | nil => rfl
  | cons t ts ih =>
    have hkt : k ≠ t := fun h => hk (by simp [h])
    have hkts : k ∉ ts := fun h => hk (by simp [h])
    rw [List.foldl_cons, ih _ hkts, getField_setField, if_neg (Ne.symm hkt)]

theorem getField_foldl_setField_mem (keys : List String) (d : ResourceData) (k : String)
    (hk : k ∈ keys) :
    getField (keys.foldl (fun d t => setField d t (.list [])) d) k = some (.list []) := by
  induction keys generalizing d with
  | nil => cases hk
  | cons t ts ih =>
    rw [List.foldl_cons]
    by_cases hmem : k ∈ ts
    · exact ih _ hmem
    · have hkt : k = t := by
        rcases List.mem_cons.mp hk with h | h
        · exact h
        · exact absurd h hmem
      subst hkt
      rw [getField_foldl_setField_ne ts _ _ hmem, getField_setField, if_pos rfl]

/-- No supported service type (nor its `_user_config` companion key)
collides with any key written unconditionally by the copy-back step,
and none is the empty string. -/
theorem serviceType_key_facts :
    ∀ s ∈ availableServiceTypes,
      s ≠ "" ∧ s ≠ "cloud_name" ∧ s ≠ "service_name" ∧ s ≠ "state" ∧ s ≠ "plan"
      ∧ s ≠ "service_type" ∧ s ≠ "termination_protection"
      ∧ s ≠ "maintenance_window_dow" ∧ s ≠ "maintenance_window_time"
      ∧ s ≠ "service_uri" ∧ s ≠ "project" ∧ s ≠ "project_vpc_id"
      ∧ s ≠ "service_host" ∧ s ≠ "service_port" ∧ s ≠ "service_password"
      ∧ s ≠ "service_username" ∧ s ≠ "components"
      ∧ s ++ "_user_config" ≠ "cloud_name" ∧ s ++ "_user_config" ≠ "service_name"
      ∧ s ++ "_user_config" ≠ "state" ∧ s ++ "_user_config" ≠ "plan"
      ∧ s ++ "_user_config" ≠ "service_type"
      ∧ s ++ "_user_config" ≠ "termination_protection"
      ∧ s ++ "_user_config" ≠ "maintenance_window_dow"
      ∧ s ++ "_user_config" ≠ "maintenance_window_time"
      ∧ s ++ "_user_config" ≠ "service_uri" ∧ s ++ "_user_config" ≠ "project"
      ∧ s ++ "_user_config" ≠ "project_vpc_id" ∧ s ++ "_user_config" ≠ "service_host"
      ∧ s ++ "_user_config" ≠ "service_port" ∧ s ++ "_user_config" ≠ "service_password"
      ∧ s ++ "_user_config" ≠ "service_username" ∧ s ++ "_user_config" ≠ "components" := by
  decide

/-- Every block cleared by the generic create wrapper is a supported type. -/
theorem preSeed_subset_available :
    ∀ y ∈ genericPreSeedTypes, y ∈ availableServiceTypes := by
  decide

/-- No cleared block key is the `_user_config` companion of a supported type. -/
theorem preSeed_ne_user_config :
    ∀ x ∈ availableServiceTypes, ∀ y ∈ genericPreSeedTypes,
      y ≠ x ++ "_user_config" := by
  decide

theorem service_type_not_preSeed : "service_type" ∉ genericPreSeedTypes := by
  decide

/-- No supported type is the `_user_config` companion key of another. -/
theorem available_ne_user_config :
    ∀ x ∈ availableServiceTypes, ∀ y ∈ availableServiceTypes,
      y ≠ x ++ "_user_config" := by
  decide

/-! ## C10 — VPC frame condition -/

/-- C10: when the remote response carries no project VPC reference, the
copy-back step leaves the stored `project_vpc_id` unchanged, while
`cloud_name`, `service_name`, `state`, `plan`, `termination_protection`,
the maintenance-window fields and `service_uri` are overwritten with the
remote values unconditionally. -/
theorem vpc_frame_condition (conv : FieldValue → FieldValue) (d : ResourceData)
    (service : Service) (project : String) (d2 : ResourceData)
    (hvpc : service.projectVPCID = none)
    (hst : effectiveServiceType d service ∈ availableServiceTypes)
    (hcopy : copyServicePropertiesFromAPIResponseToTerraform conv d service project = some d2) :
    getField d2 "project_vpc_id" = getField d "project_vpc_id"
    ∧ getField d2 "cloud_name" = some (.str service.cloudName)
    ∧ getField d2 "service_name" = some (.str service.name)
    ∧ getField d2 "state" = some (.str service.state)
    ∧ getField d2 "plan" = some (.str service.plan)
    ∧ getField d2 "termination_protection" = some (.bool service.terminationProtection)
    ∧ getField d2 "maintenance_window_dow" = some (.str service.maintenanceWindow.dayOfWeek)
    ∧ getField d2 "maintenance_window_time" = some (.str service.maintenanceWindow.timeOfDay)
    ∧ getField d2 "service_uri" = some (.str service.uri) := by
  obtain ⟨props, hprops⟩ := Option.isSome_iff_exists.mp
    ((connectionInfoProps_isSome_iff (effectiveServiceType d service)
      service.connectionInfo).mpr hst)
  obtain ⟨hE, hC1, hC2, hC3, hC4, hC5, hC6, hC7, hC8, hC9, hC10, hC11, hC12, hC13,
    hC14, hC15, hC16, hU1, hU2, hU3, hU4, hU5, hU6, hU7, hU8, hU9, hU10, hU11, hU12,
    hU13, hU14, hU15, hU16⟩ :=
    serviceType_key_facts (effectiveServiceType d service) hst
  simp only [copyServicePropertiesFromAPIResponseToTerraform,
    copyConnectionInfoFromAPIResponseToTerraform, hvpc, Option.map_none',
    setFieldIfSome_none, hprops] at hcopy
  have hd2 := Option.some.inj hcopy
  subst hd2
  refine ⟨?_, ?_, ?_, ?_, ?_, ?_, ?_, ?_, ?_⟩ <;>
    simp [getField_setField, getField_setFieldIfSome_ne, hC1, hC2, hC3, hC4, hC5,
      hC6, hC7, hC8, hC9, hC10, hC11, hC12, hC13, hC14, hC15, hC16,
      hU1, hU2, hU3, hU4, hU5, hU6, hU7, hU8, hU9, hU10, hU11, hU12, hU13, hU14,
      hU15, hU16]

/-- Frame lemma: the copy-back step never touches the computed block of
a supported service type other than the effective one. -/
theorem copyServiceProperties_block_frame (conv : FieldValue → FieldValue)
    (d d2 : ResourceData) (service : Service) (project : String) (k : String)
    (hcopy : copyServicePropertiesFromAPIResponseToTerraform conv d service project = some d2)
    (hst : effectiveServiceType d service ∈ availableServiceTypes)
    (hkav : k ∈ availableServiceTypes)
    (hk1 : k ≠ effectiveServiceType d service) :
    getField d2 k = getField d k := by
  obtain ⟨props, hprops⟩ := Option.isSome_iff_exists.mp
    ((connectionInfoProps_isSome_iff (effectiveServiceType d service)
      service.connectionInfo).mpr hst)
  obtain ⟨_, hC1, hC2, hC3, hC4, hC5, hC6, hC7, hC8, hC9, hC10, hC11, hC12, hC13,
    hC14, hC15, hC16, _, _, _, _, _, _, _, _, _, _, _, _, _, _, _, _⟩ :=
    serviceType_key_facts k hkav
  have huc : effectiveServiceType d service ++ "_user_config" ≠ k :=
    Ne.symm (available_ne_user_config (effectiveServiceType d service) hst k hkav)
  simp only [copyServicePropertiesFromAPIResponseToTerraform,
    copyConnectionInfoFromAPIResponseToTerraform, hprops] at hcopy
  have hd2 := Option.some.inj hcopy
  subst hd2
  simp [getField_setField, getField_setFieldIfSome_ne, huc, Ne.symm hk1,
    Ne.symm hC1, Ne.symm hC2, Ne.symm hC3, Ne.symm hC4, Ne.symm hC5, Ne.symm hC6,
    Ne.symm hC7, Ne.symm hC8, Ne.symm hC9, Ne.symm hC10, Ne.symm hC11, Ne.symm hC12,
    Ne.symm hC13, Ne.symm hC14, Ne.symm hC15, Ne.symm hC16]

/-- The copy-back step records the effective service type in the
`service_type` field. -/
theorem copyServiceProperties_serviceType (conv : FieldValue → FieldValue)
    (d d2 : ResourceData) (service : Service) (project : String)
    (hcopy : copyServicePropertiesFromAPIResponseToTerraform conv d service project = some d2)
    (hst : effectiveServiceType d service ∈ availableServiceTypes) :
    getField d2 "service_type" = some (.str (effectiveServiceType d service)) := by
  obtain ⟨props, hprops⟩ := Option.isSome_iff_exists.mp
    ((connectionInfoProps_isSome_iff (effectiveServiceType d service)
      service.connectionInfo).mpr hst)
  obtain ⟨_, _, _, _, _, hC5, _, _, _, _, _, _, _, _, _, _, _,
    _, _, _, _, hU5, _, _, _, _, _, _, _, _, _, _, _⟩ :=
    serviceType_key_facts (effectiveServiceType d service) hst
  simp only [copyServicePropertiesFromAPIResponseToTerraform,
    copyConnectionInfoFromAPIResponseToTerraform, hprops] at hcopy
  have hd2 := Option.some.inj hcopy
  subst hd2
  simp [getField_setField, getField_setFieldIfSome_ne, hC5, hU5]

/-- The copy-back step preserves the effective service type itself. -/
theorem copyServiceProperties_effectiveType (conv : FieldValue → FieldValue)
    (d d2 : ResourceData) (service : Service) (project : String)
    (hcopy : copyServicePropertiesFromAPIResponseToTerraform conv d service project = some d2)
    (hst : effectiveServiceType d service ∈ availableServiceTypes) :
    effectiveServiceType d2 service = effectiveServiceType d service := by
  obtain ⟨hE, _, _, _, _, _, _, _, _, _, _, _, _, _, _, _, _,
    _, _, _, _, _, _, _, _, _, _, _, _, _, _, _, _⟩ :=
    serviceType_key_facts (effectiveServiceType d service) hst
  have hget := copyServiceProperties_serviceType conv d d2 service project hcopy hst
  have hgs : getStr d2 "service_type" = effectiveServiceType d service := by
    simp [getStr, hget]
  show (if getStr d2 "service_type" = "" then service.type else getStr d2 "service_type")
    = effectiveServiceType d service
  rw [hgs, if_neg hE]

/-- Witness for C10 at a concrete record and a VPC-less remote response. -/
theorem vpc_frame_condition_witness :
    sampleService.projectVPCID = none
    ∧ effectiveServiceType sampleData sampleService ∈ availableServiceTypes
    ∧ getField ((copyServicePropertiesFromAPIResponseToTerraform (fun c => c)
        sampleData sampleService "proj1").getD sampleData) "project_vpc_id"
      = getField sampleData "project_vpc_id" :=
  ⟨rfl, by decide,
   (vpc_frame_condition (fun c => c) sampleData sampleService "proj1"
     ((copyServicePropertiesFromAPIResponseToTerraform (fun c => c)
       sampleData sampleService "proj1").getD sampleData)
     rfl (by decide) rfl).1⟩

/-! ## C2 — create pre-seeding -/

/-- Every block key in `genericPreSeedTypes` ends up empty after
pre-seeding. -/
theorem getField_preSeed_mem (d : ResourceData) (k : String)
    (hk : k ∈ genericPreSeedTypes) :
    getField (preSeedServiceBlocks d) k = some (.list []) :=
  getField_foldl_setField_mem _ _ _ hk

/-- C2 counterexample: `m3db` is a supported service type distinct from
the created type `pg`, yet after a successful generic Create its block
is absent from the resulting record — the wrapper clears only 12 of the
14 supported types. -/
theorem create_preseed_counterexample :
    "m3db" ∈ availableServiceTypes
    ∧ ("m3db" : String) ≠ "pg"
    ∧ effectiveServiceType sampleData sampleService = "pg"
    ∧ (createGenericService (fun c => c) sampleData sampleService "proj1").isSome = true
    ∧ getField ((createGenericService (fun c => c) sampleData sampleService "proj1").getD
        sampleData) "m3db" = none :=
  ⟨by decide, by decide, rfl, rfl, rfl⟩

/-- C2 (amended): after a successful generic Create of service type X,
every per-type block actually cleared by the wrapper — all supported
types except `m3db` and `m3aggregator` — other than X is present and set
to an empty list in the resulting record, and an immediately following
Read leaves it with the identical empty value (no diff). -/
theorem create_preseed_amended (conv : FieldValue → FieldValue) (d : ResourceData)
    (service : Service) (project : String) (Y : String) (d3 d4 : ResourceData)
    (hst : effectiveServiceType d service ∈ availableServiceTypes)
    (hY : Y ∈ genericPreSeedTypes)
    (hYX : Y ≠ effectiveServiceType d service)
    (hcreate : createGenericService conv d service project = some d3)
    (hread : copyServicePropertiesFromAPIResponseToTerraform conv d3 service
      (splitResourceID2 d3.id).1 = some d4) :
    getField d3 Y = some (.list []) ∧ getField d4 Y = some (.list []) := by
  simp only [createGenericService] at hcreate
  have hpre : effectiveServiceType
      { preSeedServiceBlocks d with id := buildResourceID [project, service.name] } service
      = effectiveServiceType d service := by
    have hget : getField
        { preSeedServiceBlocks d with id := buildResourceID [project, service.name] }
        "service_type" = getField d "service_type" := by
      rw [getField_withId]
      exact getField_foldl_setField_ne _ _ _ service_type_not_preSeed
    unfold effectiveServiceType getStr
    rw [hget]
  have hstp : effectiveServiceType
      { preSeedServiceBlocks d with id := buildResourceID [project, service.name] } service
      ∈ availableServiceTypes := by
    rw [hpre]
    exact hst
  have hY1 : Y ≠ effectiveServiceType
      { preSeedServiceBlocks d with id := buildResourceID [project, service.name] } service := by
    rw [hpre]
    exact hYX
  have hYav : Y ∈ availableServiceTypes := preSeed_subset_available Y hY
  have h3 : getField d3 Y = some (.list []) := by
    rw [copyServiceProperties_block_frame conv _ d3 service project Y hcreate hstp hYav hY1]
    rw [getField_withId]
    exact getField_preSeed_mem d Y hY
  have htyp3 : effectiveServiceType d3 service = effectiveServiceType d service := by
    rw [copyServiceProperties_effectiveType conv _ d3 service project hcreate hstp, hpre]
  have h4 : getField d4 Y = getField d3 Y := by
    apply copyServiceProperties_block_frame conv d3 d4 service _ Y hread
    · rw [htyp3]
      exact hst
    · exact hYav
    · rw [htyp3]
      exact hYX
  exact ⟨h3, by rw [h4, h3]⟩

/-- Witness for the amended C2: after creating a `pg` service the
`kafka` block is present and empty, and stays so across a Read. -/
theorem create_preseed_amended_witness :
    effectiveServiceType sampleData sampleService ∈ availableServiceTypes
    ∧ "kafka" ∈ genericPreSeedTypes
    ∧ ("kafka" : String) ≠ effectiveServiceType sampleData sampleService
    ∧ getField ((createGenericService (fun c => c) sampleData sampleService "proj1").getD
        sampleData) "kafka" = some (.list []) := by
  refine ⟨by decide, by decide, by decide, ?_⟩
  exact (create_preseed_amended (fun c => c) sampleData sampleService "proj1" "kafka"
    ((createGenericService (fun c => c) sampleData sampleService "proj1").getD sampleData)
    ((copyServicePropertiesFromAPIResponseToTerraform (fun c => c)
      ((createGenericService (fun c => c) sampleData sampleService "proj1").getD sampleData)
      sampleService
      (splitResourceID2 ((createGenericService (fun c => c) sampleData sampleService
        "proj1").getD sampleData).id).1).getD sampleData)
    (by decide) (by decide) (by decide) rfl rfl).1


end AivenProvider
